import Mathlib

/-!
Verification of the LLM fallback command bridge.

Shallow embedding of the repository's two source files:
`src/cowrie/core/llm_cache.py` (the `LLMCacheClient` network client) and
`src/cowrie/commands/llm.py` (the `Command_llm` fallback handler), together
with theorems settling the specification's claims about them.
-/

/-- JSON values as produced by the Python json module: json.loads yields
None, booleans, numbers, strings, lists, and dicts (modelled as association
lists with string keys). -/
inductive JSON where
  | null
  | bool (b : Bool)
  | num (n : Int)
  | str (s : String)
  | arr (elems : List JSON)
  | obj (fields : List (String × JSON))

/-- An environment mapping, standing for os.environ: a variable that is not
set maps to none. -/
def Env : Type := String → Option String

/-- Python truthiness of an os.environ.get result: None and the empty string
are falsy, every other string is truthy.  This is what the source's
all([os.environ.get(...), ...]) tests elementwise. -/
def pyTruthy : Option String → Bool
  | none => false
  | some s => s != ""

/-- The state built by LLMCacheClient.__init__ in cowrie/core/llm_cache.py. -/
structure LLMCacheClient where
  url : String
  port : String
  endpoint : String
  full_url : String
  enabled : Bool

/-- Embedding of LLMCacheClient.__init__: read the three variables with their
defaults, build the full URL from the defaulted values, and compute enabled
from the truthiness of the raw (non-defaulted) environment values. -/
def LLMCacheClient.init (env : Env) : LLMCacheClient :=
  let url := (env ("LLM_CACHE_URL")).getD ("http://localhost")
  let port := (env ("LLM_CACHE_PORT")).getD ("8080")
  let endpoint := (env ("LLM_CACHE_ENDPOINT")).getD ("/query")
  { url := url
    port := port
    endpoint := endpoint
    full_url := url ++ ":" ++ port ++ endpoint
    enabled := pyTruthy (env ("LLM_CACHE_URL")) &&
               pyTruthy (env ("LLM_CACHE_PORT")) &&
               pyTruthy (env ("LLM_CACHE_ENDPOINT")) }

/-- The observable parts of the one POST request query_command issues:
method, target URL, the two headers, and the body. -/
structure HTTPRequest where
  method : String
  url : String
  contentType : String
  contentLength : Nat
  body : String

/-- Behaviour of the network transport for one query, the oracle for the
agent.request / client.readBody / json.loads steps: either some transport
step raises, or a body is received, carried here as the result of
json.loads on it (none when the body is malformed and json.loads raises). -/
inductive NetOutcome where
  | transportError
  | reply (parsed : Option JSON)

/-- Python str.endswith: whether the characters of suffix form a suffix of
the characters of s. -/
def pyEndsWith (s suffix : String) : Bool :=
  suffix.data.isSuffixOf s.data

/-- Python dict.get with a default, on a parsed JSON object. -/
def dictGet (fields : List (String × JSON)) (key : String) (default : JSON) : JSON :=
  match fields.lookup key with
  | some v => v
  | none => default

/-- Embedding of LLMCacheClient.query_command.  The dumps argument stands for
the library call json.dumps on the payload object holding the command under
the key content (no claim depends on its output).  The first component is the
value handed to defer.returnValue, with none for the Python None; the second
is the request issued, if any.  Every exception raised between building the
payload and parsing the reply is caught by the source's except block, which
returns None: a transport error, an unparseable body, and a parsed body that
is not a dict (on which .get raises AttributeError) all land there. -/
def LLMCacheClient.query_command (c : LLMCacheClient) (dumps : String → String)
    (command : String) (net : NetOutcome) : Option JSON × Option HTTPRequest :=
  if !c.enabled then
    (none, none)
  else
    let json_data := dumps command
    let req : HTTPRequest :=
      { method := "POST"
        url := c.full_url
        contentType := "application/json"
        contentLength := json_data.utf8ByteSize
        body := json_data }
    match net with
    | NetOutcome.transportError => (none, some req)
    | NetOutcome.reply none => (none, some req)
    | NetOutcome.reply (some (JSON.obj fields)) =>
        (some (dictGet fields ("response") (JSON.str (""))), some req)
    | NetOutcome.reply (some _) => (none, some req)

/-- The command line Command_llm.start reconstructs: the space-join of the
command name and the arguments. -/
def Command_llm.full_command (name : String) (args : List String) : String :=
  String.intercalate (" ") (name :: args)

/-- Embedding of Command_llm.start: rebuild the command line, query the
client (the query argument stands for the suspended query_command call,
delivering the response string or None), and decide the terminal output.
Returns the command line passed to the query together with the list of
strings written to the terminal, in order. -/
def Command_llm.start (name : String) (args : List String)
    (query : String → Option String) : String × List String :=
  let full_command := Command_llm.full_command name args
  let response := query full_command
  let writes :=
    match response with
    | some r =>
        if r != "" then
          r :: (if pyEndsWith r ("\n") then [] else ["\n"])
        else
          ["bash: " ++ name ++ ": command not found\n"]
    | none => ["bash: " ++ name ++ ": command not found\n"]
  (full_command, writes)

/-- Spec-side description of the reconstructed command line, written from the
claim's words: the name followed by each argument in order, one space between
consecutive tokens, the tokens' contents untouched. -/
def joinWithSpaces (name : String) (args : List String) : String :=
  args.foldl (fun acc a => acc ++ " " ++ a) name

/-- Whether a query result is a string or the absent marker: the shape the
spec's invariant asserts for every exit path of the query operation. -/
def isStrOrNone : Option JSON → Bool
  | none => true
  | some (JSON.str _) => true
  | some _ => false

/-- Whether the transport outcome is a reply whose body parses as a JSON
object.  Every other outcome makes some step of query_command raise inside
the try block: a transport error, an unparseable body, or a parsed value
that is not a dict. -/
def NetOutcome.isObjReply : NetOutcome → Bool
  | NetOutcome.reply (some (JSON.obj _)) => true
  | _ => false

/-- The empty environment: none of the three variables is set. -/
def envNone : Env := fun _ => none

/-- An environment with all three variables set to non-empty values. -/
def envFull : Env := fun k =>
  if k = "LLM_CACHE_URL" then some ("http://cache.local")
  else if k = "LLM_CACHE_PORT" then some ("9000")
  else if k = "LLM_CACHE_ENDPOINT" then some ("/query")
  else none

/-- An environment where LLM_CACHE_URL is explicitly set to the empty string
while the other two variables hold non-empty values. -/
def envEmptyUrl : Env := fun k =>
  if k = "LLM_CACHE_URL" then some ("")
  else if k = "LLM_CACHE_PORT" then some ("8080")
  else if k = "LLM_CACHE_ENDPOINT" then some ("/query")
  else none

/-- A concrete payload serializer used by witnesses, wrapping the command in
the content object (the braces written with explicit escapes). -/
def dumpsContent (command : String) : String :=
  "\x7b\"content\": \"" ++ command ++ "\"\x7d"

/-- The environment env with the variable k removed. -/
def unsetKey (env : Env) (k : String) : Env :=
  fun x => if x = k then none else env x

theorem pyTruthy_iff (o : Option String) :
    pyTruthy o = true ↔ ∃ s, o = some s ∧ s ≠ "" := by
  cases o with
  | none => simp [pyTruthy]
  | some s => simp [pyTruthy, bne_iff_ne]

theorem intercalate_go_eq_foldl (s : String) (as : List String) (acc : String) :
    String.intercalate.go acc s as = as.foldl (fun b a => b ++ s ++ a) acc := by
  induction as generalizing acc with
  | nil => rfl
  | cons a as ih => simp [String.intercalate.go, ih]

/-- C2: if the client's enabled flag is false, query_command returns the
absent marker and no request is built or issued, for every command string
and every behaviour of the transport. -/
theorem query_command_disabled_no_request (c : LLMCacheClient)
    (dumps : String → String) (command : String) (net : NetOutcome)
    (h : c.enabled = false) :
    c.query_command dumps command net = (none, none) := by
  simp [LLMCacheClient.query_command, h]

/-- C2 witness: the client built from the empty environment is disabled and
queries return the absent marker with no request. -/
theorem query_command_disabled_no_request_witness :
    (LLMCacheClient.init envNone).query_command dumpsContent ("ls -la")
      NetOutcome.transportError = (none, none) :=
  query_command_disabled_no_request _ _ _ _ rfl

/-- C3: with the client enabled, a reply whose body parses as an object whose
response key holds the string X makes query_command return exactly X as a
present outcome. -/
theorem query_command_returns_response_field (c : LLMCacheClient)
    (dumps : String → String) (command : String)
    (fields : List (String × JSON)) (X : String)
    (hen : c.enabled = true)
    (hx : fields.lookup ("response") = some (JSON.str X)) :
    (c.query_command dumps command
      (NetOutcome.reply (some (JSON.obj fields)))).1 = some (JSON.str X) := by
  simp [LLMCacheClient.query_command, hen, dictGet, hx]

/-- C3 witness: end-to-end scenario 1's reply on an enabled client. -/
theorem query_command_returns_response_field_witness :
    ((LLMCacheClient.init envFull).query_command dumpsContent ("foobar -x")
      (NetOutcome.reply (some (JSON.obj
        [("response", JSON.str ("foobar: permission denied"))])))).1
      = some (JSON.str ("foobar: permission denied")) :=
  query_command_returns_response_field _ _ _ _ _ rfl rfl

/-- C4: with the client enabled, a reply whose body parses as an object
lacking the response key makes query_command return the empty string, a
present outcome rather than the absent one; and the Handler, when the query
delivers that empty string, writes the not-found fallback line rather than
blank output. -/
theorem missing_response_key_empty_then_fallback (c : LLMCacheClient)
    (dumps : String → String) (command : String)
    (fields : List (String × JSON))
    (hen : c.enabled = true)
    (hmiss : fields.lookup ("response") = none) :
    (c.query_command dumps command
        (NetOutcome.reply (some (JSON.obj fields)))).1 = some (JSON.str ("")) ∧
    ∀ (name : String) (args : List String) (query : String → Option String),
      query (Command_llm.full_command name args) = some "" →
      (Command_llm.start name args query).2 =
        ["bash: " ++ name ++ ": command not found\n"] := by
  constructor
  · simp [LLMCacheClient.query_command, hen, dictGet, hmiss]
  · intro name args query hq
    simp [Command_llm.start, hq]

/-- C4 witness: a reply holding only an unrelated key yields the empty
string, and the Handler given the empty string writes the fallback line. -/
theorem missing_response_key_empty_then_fallback_witness :
    ((LLMCacheClient.init envFull).query_command dumpsContent ("zork")
        (NetOutcome.reply (some (JSON.obj [("other", JSON.null)])))).1
      = some (JSON.str ("")) ∧
    (Command_llm.start ("zork") [] (fun _ => some (""))).2 =
      ["bash: zork: command not found\n"] := by
  have h := missing_response_key_empty_then_fallback (LLMCacheClient.init envFull)
    dumpsContent ("zork") [("other", JSON.null)] rfl rfl
  exact ⟨h.1, h.2 ("zork") [] (fun _ => some ("")) rfl⟩

/-- C5: whenever the query outcome is absent or the empty string, the Handler
writes exactly one line, the fallback built from the command name alone with
the arguments omitted. -/
theorem fallback_line_on_absent_or_empty (name : String) (args : List String)
    (query : String → Option String)
    (h : query (Command_llm.full_command name args) = none ∨
         query (Command_llm.full_command name args) = some "") :
    (Command_llm.start name args query).2 =
      ["bash: " ++ name ++ ": command not found\n"] := by
  rcases h with h | h <;> simp [Command_llm.start, h]

/-- C5 witness: end-to-end scenario 3, the query for ls -z comes back absent
and the fallback line names only ls. -/
theorem fallback_line_on_absent_or_empty_witness :
    (Command_llm.start ("ls") (["-z"]) (fun _ => none)).2 =
      ["bash: ls: command not found\n"] :=
  fallback_line_on_absent_or_empty ("ls") (["-z"]) (fun _ => none) (Or.inl rfl)

/-- C6: a delivered non-empty response is written verbatim, with one newline
appended exactly when it does not already end in one: the writes are the
response alone when it ends with a newline and the response then a newline
otherwise, so the joined output is R or R followed by a newline. -/
theorem newline_termination (name : String) (args : List String)
    (query : String → Option String) (R : String)
    (hq : query (Command_llm.full_command name args) = some R)
    (hne : R ≠ "") :
    (Command_llm.start name args query).2 =
      (if pyEndsWith R ("\n") then [R] else [R, "\n"]) ∧
    String.join (Command_llm.start name args query).2 =
      (if pyEndsWith R ("\n") then R else R ++ "\n") := by
  have hb : (R != "") = true := bne_iff_ne.mpr hne
  by_cases hw : pyEndsWith R ("\n") = true
  · constructor
    · simp [Command_llm.start, hq, hb, hw]
    · simp [Command_llm.start, String.join, hq, hb, hw, String.empty_append]
  · constructor
    · simp [Command_llm.start, hq, hb, hw]
    · simp [Command_llm.start, String.join, hq, hb, hw, String.empty_append]

/-- C6 witness: a response already ending in a newline is written with
nothing appended. -/
theorem newline_termination_witness :
    (Command_llm.start ("echo") (["hi"]) (fun _ => some ("hello\n"))).2 =
      ["hello\n"] ∧
    String.join (Command_llm.start ("echo") (["hi"])
      (fun _ => some ("hello\n"))).2 = "hello\n" := by
  have h := newline_termination ("echo") (["hi"]) (fun _ => some ("hello\n"))
    ("hello\n") rfl (by decide)
  have hw : pyEndsWith ("hello\n") ("\n") = true := by decide
  rw [hw] at h
  simpa using h

/-- C7 counterexample: with LLM_CACHE_URL explicitly set to the empty string
and the other two variables set to non-empty values, all three settings are
explicitly supplied in the raw environment, yet the client is not enabled:
the enabled flag is not equivalent to the three settings being supplied. -/
theorem enabled_not_iff_supplied :
    ¬ (((LLMCacheClient.init envEmptyUrl).enabled = true) ↔
        ((envEmptyUrl ("LLM_CACHE_URL")).isSome = true ∧
         (envEmptyUrl ("LLM_CACHE_PORT")).isSome = true ∧
         (envEmptyUrl ("LLM_CACHE_ENDPOINT")).isSome = true)) := by
  decide

/-- C7 amended: the enabled flag is true iff each of the three settings is
explicitly supplied with a non-empty value in the raw environment (defaulted
values count as not supplied); if any one is missing or empty, the client is
disabled, silently, since the constructor is total. -/
theorem enabled_iff_supplied_nonempty (env : Env) :
    (LLMCacheClient.init env).enabled = true ↔
      ((∃ u, env ("LLM_CACHE_URL") = some u ∧ u ≠ "") ∧
       (∃ p, env ("LLM_CACHE_PORT") = some p ∧ p ≠ "") ∧
       (∃ e, env ("LLM_CACHE_ENDPOINT") = some e ∧ e ≠ "")) := by
  simp [LLMCacheClient.init, Bool.and_eq_true, pyTruthy_iff, and_assoc]

/-- C8: the command line the Handler passes to the query operation is the
command name followed by each argument in order, joined with single space
separators and the tokens' contents untouched. -/
theorem full_command_is_space_join (name : String) (args : List String)
    (query : String → Option String) :
    (Command_llm.start name args query).1 = joinWithSpaces name args := by
  have h1 : (Command_llm.start name args query).1 =
      Command_llm.full_command name args := rfl
  rw [h1]
  simp [Command_llm.full_command, joinWithSpaces, String.intercalate,
    intercalate_go_eq_foldl]

/-- C9: the full target address is the address value, a colon, the port value,
and the endpoint path concatenated in that order, unset variables taking the
defaults; with nothing set the target is http://localhost:8080/query. -/
theorem full_url_concatenation (env : Env) :
    (LLMCacheClient.init env).full_url =
      ((env ("LLM_CACHE_URL")).getD ("http://localhost")) ++ ":" ++
      ((env ("LLM_CACHE_PORT")).getD ("8080")) ++
      ((env ("LLM_CACHE_ENDPOINT")).getD ("/query")) ∧
    (LLMCacheClient.init envNone).full_url = "http://localhost:8080/query" := by
  exact ⟨rfl, rfl⟩

/-- C10: a variable among the three that is explicitly set to the empty
string disables the client, and the enabled check cannot tell that
environment apart from the one with the variable unset: it tests the
truthiness of the raw values, not their presence. -/
theorem empty_value_disables (env : Env) (k : String)
    (hk : k = "LLM_CACHE_URL" ∨ k = "LLM_CACHE_PORT" ∨ k = "LLM_CACHE_ENDPOINT")
    (hv : env k = some "") :
    (LLMCacheClient.init env).enabled = false ∧
    (LLMCacheClient.init env).enabled =
      (LLMCacheClient.init (unsetKey env k)).enabled := by
  rcases hk with hk | hk | hk <;> subst hk <;>
    refine ⟨?_, ?_⟩ <;>
      simp +decide [LLMCacheClient.init, unsetKey, pyTruthy, hv]

/-- C10 witness: the environment with LLM_CACHE_URL set to the empty string
gives a disabled client, indistinguishable by the enabled flag from the same
environment with the variable removed. -/
theorem empty_value_disables_witness :
    (LLMCacheClient.init envEmptyUrl).enabled = false ∧
    (LLMCacheClient.init envEmptyUrl).enabled =
      (LLMCacheClient.init (unsetKey envEmptyUrl ("LLM_CACHE_URL"))).enabled :=
  empty_value_disables envEmptyUrl ("LLM_CACHE_URL") (Or.inl rfl) rfl

/-- C1 counterexample: with the client enabled and the transport delivering a
body that parses as an object whose response field holds the number 42,
query_command returns that number: an exit path whose value is neither a
string nor the absent marker. -/
theorem query_can_yield_nonstring :
    ((LLMCacheClient.init envFull).query_command dumpsContent ("id")
        (NetOutcome.reply (some (JSON.obj [("response", JSON.num 42)])))).1
      = some (JSON.num 42) ∧
    isStrOrNone (some (JSON.num 42)) = false := by
  exact ⟨rfl, rfl⟩

/-- C1 amended: the query operation never fails unhandled: a disabled client
yields the absent marker, any failure during the request, body reading, or
reply parsing, and any reply that does not parse as an object, yields the
absent marker, and an enabled client given an object reply yields the value
of its response field (the empty string when the field is missing). -/
theorem query_command_exit_paths (c : LLMCacheClient) (dumps : String → String)
    (command : String) (net : NetOutcome) :
    (c.enabled = false → (c.query_command dumps command net).1 = none) ∧
    (net.isObjReply = false → (c.query_command dumps command net).1 = none) ∧
    (∀ fields, c.enabled = true →
      net = NetOutcome.reply (some (JSON.obj fields)) →
      (c.query_command dumps command net).1 =
        some (dictGet fields ("response") (JSON.str ("")))) := by
  refine ⟨?_, ?_, ?_⟩
  · intro h
    simp [LLMCacheClient.query_command, h]
  · intro h
    cases hc : c.enabled with
    | false => simp [LLMCacheClient.query_command, hc]
    | true =>
      rcases net with _ | p
      · simp [LLMCacheClient.query_command, hc]
      · rcases p with _ | j
        · simp [LLMCacheClient.query_command, hc]
        · cases j <;>
            simp_all [LLMCacheClient.query_command, NetOutcome.isObjReply]
  · intro fields hc hnet
    subst hnet
    simp [LLMCacheClient.query_command, hc]

/-- C1 amended witness: a transport error on an enabled client yields the
absent marker, and an object reply yields its extracted response field. -/
theorem query_command_exit_paths_witness :
    ((LLMCacheClient.init envFull).query_command dumpsContent ("ls")
        NetOutcome.transportError).1 = none ∧
    ((LLMCacheClient.init envFull).query_command dumpsContent ("ls")
        (NetOutcome.reply (some (JSON.obj [("response", JSON.str ("ok"))])))).1
      = some (dictGet [("response", JSON.str ("ok"))] ("response")
          (JSON.str (""))) :=
  ⟨(query_command_exit_paths _ _ _ _).2.1 rfl,
   (query_command_exit_paths _ _ _ _).2.2 _ rfl rfl⟩
